import Mathlib

/-!
Verification of the clinical-management-system billing engine and
appointment scheduler against their natural-language specification.

The embedding follows `src/billing/models.py` (class `Billing`) and
`src/receptionist/models.py` (class `Appointment`).  Monetary
`DecimalField(10, 2)` values are exact fixed-point numbers; the engine
only adds, subtracts and compares them (no multiplication or
division), so they are modelled as integers counted in the Decimal
quantum, over which those operations are exact.  `DateField`s used purely for day
arithmetic (`billing_date`, `due_date`, `appointment_date`) are day
numbers (`Int`); the creation date used by `strftime` based
bill-number generation is a calendar date record.  `TimeField`s are
minutes since midnight.  Django's persistence boundary is modelled by
`Except`: a method that raises `ValidationError` returns `.error` with
the collected messages and persists nothing, a successful
`save` returns `.ok` with the persisted record.
-/

/-- Payment status choices of `Billing.PAYMENT_STATUS_CHOICES`. -/
inductive PayStatus where
  | PENDING
  | PAID
  | PARTIAL
  | CANCELLED
deriving DecidableEq, Repr

/-- Payment method choices of `Billing.PAYMENT_METHOD_CHOICES`. -/
inductive PayMethod where
  | CASH
  | CARD
  | UPI
  | INSURANCE
  | OTHER
deriving DecidableEq, Repr

/-- A calendar date, as used by `timezone.now().date()` and
`strftime` in bill-number generation. -/
structure Date where
  year : Nat
  month : Nat
  day : Nat
deriving DecidableEq, Repr

/-- Zero-pad the decimal representation of `n` to at least `w` digits,
as Python `%` formatting with `04d` (and `strftime` with zero-padded
fields) does. -/
def padNum (w n : Nat) : String :=
  let s := Nat.repr n
  String.mk (List.replicate (w - s.length) '0') ++ s

/-- Python `str.strip()`: drop whitespace from both ends
(structurally recursive so concrete runs reduce). -/
def pyStrip (s : String) : String :=
  String.mk (((s.data.dropWhile Char.isWhitespace).reverse.dropWhile
    Char.isWhitespace).reverse)

/-- `strftime` with format `%Y%m%d`. -/
def dateStr (d : Date) : String :=
  padNum 4 d.year ++ padNum 2 d.month ++ padNum 2 d.day

/-- Decidable equality of `Except` results, so that concrete runs of
the operations can be checked by `decide`. -/
instance exceptDecEq {e a : Type} [DecidableEq e] [DecidableEq a] :
    DecidableEq (Except e a) := fun x y =>
  match x, y with
  | .ok v, .ok w =>
    if h : v = w then isTrue (by rw [h]) else
      isFalse (fun hh => h (Except.ok.inj hh))
  | .error v, .error w =>
    if h : v = w then isTrue (by rw [h]) else
      isFalse (fun hh => h (Except.error.inj hh))
  | .ok _, .error _ => isFalse (fun hh => Except.noConfusion hh)
  | .error _, .ok _ => isFalse (fun hh => Except.noConfusion hh)

/-- The fields of `billing.models.Billing` the billing engine reads or
writes.  `created_date` is the date part of `created_at` (used by the
`created_at__date` filter of bill-number generation). -/
structure Billing where
  consultation_fee : Int
  medicine_cost : Int
  lab_cost : Int
  other_charges : Int
  discount : Int
  tax_amount : Int
  total_amount : Int
  amount_paid : Int
  balance_due : Int
  payment_status : PayStatus
  payment_method : Option PayMethod
  bill_number : String
  billing_date : Int
  due_date : Option Int
  payment_date : Option Nat
  notes : String
  created_date : Date
deriving DecidableEq, Repr

namespace Billing

/-- `Billing.update_payment_status`: recompute `payment_status` from
`amount_paid` and `total_amount`, stamping `payment_date` (with the
current time `now`) when the bill becomes PAID. -/
def update_payment_status (now : Nat) (b : Billing) : Billing :=
  if b.amount_paid = 0 then
    { b with payment_status := .PENDING }
  else if b.amount_paid ≥ b.total_amount then
    { b with payment_status := .PAID, payment_date := some now }
  else if b.amount_paid > 0 then
    { b with payment_status := .PARTIAL }
  else
    { b with payment_status := .PENDING }

/-- `Billing.calculate_total`: subtotal of the four charge fields,
minus discount, plus tax, clamped at zero; then the balance due and
the recomputed payment status. -/
def calculate_total (now : Nat) (b : Billing) : Billing :=
  let subtotal := b.consultation_fee + b.medicine_cost + b.lab_cost + b.other_charges
  let discounted_amount := subtotal - b.discount
  let total0 := discounted_amount + b.tax_amount
  let total := if total0 < 0 then 0 else total0
  update_payment_status now
    { b with total_amount := total, balance_due := total - b.amount_paid }

/-- `Billing.clean`: the collected model-validation error messages
(the keys of the Django errors dict). -/
def clean_errors (b : Billing) : List String :=
  (if b.consultation_fee < 0 then ["consultation_fee"] else []) ++
  (if b.medicine_cost < 0 then ["medicine_cost"] else []) ++
  (if b.lab_cost < 0 then ["lab_cost"] else []) ++
  (if b.other_charges < 0 then ["other_charges"] else []) ++
  (if b.discount < 0 then ["discount"] else []) ++
  (if b.tax_amount < 0 then ["tax_amount"] else []) ++
  (if b.amount_paid > b.total_amount then ["amount_paid"] else [])

/-- `Billing.generate_bill_number`: `BILL-<YYYYMMDD>-<seq>` where the
sequence number is one plus the number of bills in the store whose
creation date is `today`, zero-padded to four digits. -/
def generate_bill_number (db : List Billing) (today : Date) : String :=
  let today_bills_count := (db.filter (fun x => x.created_date = today)).length
  let sequence := today_bills_count + 1
  "BILL-" ++ dateStr today ++ "-" ++ padNum 4 sequence

/-- The record `Billing.save` builds before `full_clean`: the bill
number assigned when empty, totals recomputed, the due date defaulted
to 15 days after the billing date. -/
def pre_save (db : List Billing) (today : Date) (now : Nat) (b : Billing) : Billing :=
  let b1 := if b.bill_number = "" then
    { b with bill_number := generate_bill_number db today } else b
  let b2 := calculate_total now b1
  if b2.due_date = none then
    { b2 with due_date := some (b2.billing_date + 15) } else b2

/-- `Billing.save`: assign a bill number when empty, recompute totals,
default the due date to 15 days after the billing date, then
`full_clean`; persist only when validation passes. -/
def save (db : List Billing) (today : Date) (now : Nat) (b : Billing) :
    Except (List String) Billing :=
  let b3 := pre_save db today now b
  let es := clean_errors b3
  if es = [] then .ok b3 else .error es

/-- `Billing.add_payment`: reject non-positive amounts and amounts
above the balance due, otherwise add to `amount_paid`, optionally
update method and notes, recalculate and save. -/
def add_payment (db : List Billing) (today : Date) (now : Nat)
    (amount : Int) (method : Option PayMethod) (notes : String) (b : Billing) :
    Except (List String) Billing :=
  if amount ≤ 0 then .error ["Payment amount must be positive"]
  else if amount > b.balance_due then .error ["Payment amount exceeds balance due"]
  else
    let b1 := { b with amount_paid := b.amount_paid + amount }
    let b2 := match method with
      | some m => { b1 with payment_method := some m }
      | none => b1
    let b3 := if notes = "" then b2 else { b2 with notes := notes }
    save db today now (calculate_total now b3)

/-- `Billing.mark_as_paid`: force full payment and PAID status, then
recalculate and save. -/
def mark_as_paid (db : List Billing) (today : Date) (now : Nat)
    (method : PayMethod) (notes : String) (b : Billing) :
    Except (List String) Billing :=
  let b1 := { b with amount_paid := b.total_amount,
                     payment_method := some method,
                     payment_status := .PAID,
                     payment_date := some now }
  let b2 := if notes = "" then b1 else { b1 with notes := notes }
  save db today now (calculate_total now b2)

/-- `Billing.apply_discount`: reject non-positive discounts and
discounts above the current total, otherwise set the discount, append
an audit note, recalculate and save. -/
def apply_discount (db : List Billing) (today : Date) (now : Nat)
    (discount_amount : Int) (reason : String) (b : Billing) :
    Except (List String) Billing :=
  if discount_amount ≤ 0 then .error ["Discount amount must be positive"]
  else if discount_amount > b.total_amount then .error ["Discount cannot exceed total amount"]
  else
    let b1 := { b with discount := discount_amount }
    let b2 := if reason = "" then b1 else
      { b1 with notes := pyStrip (b1.notes ++ "\nDiscount applied: " ++ reason) }
    save db today now (calculate_total now b2)

/-- The payment status `update_payment_status` assigns, as a pure
function of paid and total. -/
def status_of (paid total : Int) : PayStatus :=
  if paid = 0 then .PENDING
  else if paid ≥ total then .PAID
  else if paid > 0 then .PARTIAL
  else .PENDING

/-- The payment date `update_payment_status` leaves, as a pure
function: stamped with `now` exactly when the bill becomes PAID. -/
def pdate_of (now : Nat) (old : Option Nat) (paid total : Int) : Option Nat :=
  if paid = 0 then old
  else if paid ≥ total then some now
  else old

/-- The record `add_payment` hands to `calculate_total` and `save`
once both guards pass, written as a single update: `amount_paid`
increased, `payment_method` overwritten when a method is given,
`notes` overwritten when non-empty. -/
def payment_target (amount : Int) (method : Option PayMethod) (notes : String)
    (b : Billing) : Billing :=
  { b with amount_paid := b.amount_paid + amount,
           payment_method := (match method with
             | some m => some m
             | none => b.payment_method),
           notes := (if notes = "" then b.notes else notes) }

/-- The record `mark_as_paid` hands to `calculate_total` and `save`,
written as a single update. -/
def paid_target (now : Nat) (method : PayMethod) (notes : String) (b : Billing) : Billing :=
  { b with amount_paid := b.total_amount,
           payment_method := some method,
           payment_status := .PAID,
           payment_date := some now,
           notes := (if notes = "" then b.notes else notes) }

/-- The record `apply_discount` hands to `calculate_total` and `save`
once both guards pass, written as a single update. -/
def discount_target (discount_amount : Int) (reason : String) (b : Billing) : Billing :=
  { b with discount := discount_amount,
           notes := (if reason = "" then b.notes
             else pyStrip (b.notes ++ "\nDiscount applied: " ++ reason)) }

/-- The recomputed total amount of a bill, as `calculate_total`
derives it from the charge fields. -/
def computed_total (b : Billing) : Int :=
  let total0 := b.consultation_fee + b.medicine_cost + b.lab_cost +
    b.other_charges - b.discount + b.tax_amount
  if total0 < 0 then 0 else total0

/-- The persisted-state invariant every successful `save` establishes:
derived totals are consistent with the charge fields, the balance is
total minus paid, paid does not exceed total, and the validated
amounts are non-negative. -/
def Inv (b : Billing) : Prop :=
  b.total_amount = computed_total b ∧
  b.balance_due = b.total_amount - b.amount_paid ∧
  b.amount_paid ≤ b.total_amount ∧
  0 ≤ b.consultation_fee ∧ 0 ≤ b.medicine_cost ∧ 0 ≤ b.lab_cost ∧
  0 ≤ b.other_charges ∧ 0 ≤ b.discount ∧ 0 ≤ b.tax_amount

instance (b : Billing) : Decidable (Inv b) := by
  unfold Inv
  infer_instance

end Billing

/-- Appointment status choices of `Appointment.STATUS_CHOICES`. -/
inductive AppStatus where
  | SCHEDULED
  | CONFIRMED
  | IN_PROGRESS
  | COMPLETED
  | CANCELLED
  | NO_SHOW
deriving DecidableEq, Repr

/-- Priority choices of `Appointment.PRIORITY_CHOICES`. -/
inductive Priority where
  | LOW
  | MEDIUM
  | HIGH
  | URGENT
deriving DecidableEq, Repr

/-- Staff roles of `adminapp.Staff` relevant to appointment validation. -/
inductive StaffRole where
  | RECEPTIONIST
  | DOCTOR
  | ADMIN
  | LABTECHNICIAN
  | PHARMACIST
deriving DecidableEq, Repr

/-- The fields of `receptionist.models.Appointment` the scheduler
reads or writes.  `appointment_date` is a day number,
`appointment_time` is minutes since midnight, `pk` is the primary
key.  `estimated_duration` is `Option` because Python distinguishes
an explicit `None` from an integer value (`none`/`some 0` are the
falsy values of `if not self.estimated_duration`). -/
structure Appointment where
  pk : Nat
  patient : Nat
  doctor : Nat
  appointment_date : Int
  appointment_time : Nat
  purpose : String
  status : AppStatus
  priority : Priority
  created_by : Option StaffRole
  estimated_duration : Option Int
  actual_duration : Option Int
  check_in_time : Option Nat
  check_out_time : Option Nat
deriving DecidableEq, Repr

/-- The ambient request context of an appointment save:
`today` is `date.today()`, `max_future_date` is
`today + relativedelta(months=+6)` (calendar month arithmetic is
abstracted as a supplied bound), and `patient_active` is the
`is_active` flag of each patient record. -/
structure ApptCtx where
  today : Int
  max_future_date : Int
  patient_active : Nat → Bool

namespace Appointment

/-- The active statuses counted by the doctor-availability conflict
filter: `status__in=['SCHEDULED', 'CONFIRMED', 'IN_PROGRESS']`. -/
def activeStatus (s : AppStatus) : Bool :=
  s = .SCHEDULED ∨ s = .CONFIRMED ∨ s = .IN_PROGRESS

/-- Field-level validation run by `full_clean` (`clean_fields`):
`purpose` has `MinLengthValidator(5)`, `estimated_duration` is a
non-null integer with `MinValueValidator(5)` and
`MaxValueValidator(180)`, `actual_duration` is nullable with
`MinValueValidator(1)`. -/
def clean_fields_errors (a : Appointment) : List String :=
  (if a.purpose.length < 5 then ["purpose: Please describe appointment purpose"] else []) ++
  (match a.estimated_duration with
    | none => ["estimated_duration: This field cannot be null"]
    | some d =>
      (if d < 5 then ["estimated_duration: Ensure this value is greater than or equal to 5"] else []) ++
      (if d > 180 then ["estimated_duration: Ensure this value is less than or equal to 180"] else [])) ++
  (match a.actual_duration with
    | none => []
    | some d => if d < 1 then ["actual_duration: Ensure this value is greater than or equal to 1"] else [])

/-- The conflict message of `Appointment.clean`. -/
def conflictMsg : String := "Doctor already has an appointment at this time"

/-- The daily-limit message of `Appointment.clean`. -/
def dailyLimitMsg : String := "Patient cannot have more than 3 appointments per day"

/-- The `unique_together` violation message raised by Django
`validate_unique` for `Meta.unique_together =
['doctor', 'appointment_date', 'appointment_time']`. -/
def uniqueMsg : String := "Appointment with this Doctor, Appointment date and Appointment time already exists"

/-- `Appointment.clean` over the stored appointments `db`: collected
model-validation error messages. -/
def clean_errors (ctx : ApptCtx) (db : List Appointment) (a : Appointment) : List String :=
  (if a.appointment_date < ctx.today then ["Cannot book appointments in the past"] else []) ++
  (if a.appointment_date > ctx.max_future_date then
    ["Cannot book appointments more than 6 months in advance"] else []) ++
  (if ¬ (8 * 60 ≤ a.appointment_time ∧ a.appointment_time ≤ 20 * 60) then
    ["Appointments can only be scheduled between 8:00 AM and 8:00 PM"] else []) ++
  (if (db.filter (fun o => o.doctor = a.doctor ∧
        o.appointment_date = a.appointment_date ∧
        o.appointment_time = a.appointment_time ∧
        activeStatus o.status ∧ o.pk ≠ a.pk)).isEmpty = false then
    [conflictMsg] else []) ++
  (match a.created_by with
    | some r => if r ≠ .RECEPTIONIST then ["Only receptionist staff can create appointments"] else []
    | none => []) ++
  (if (db.filter (fun o => o.patient = a.patient ∧
        o.appointment_date = a.appointment_date ∧ o.pk ≠ a.pk)).length ≥ 3 then
    [dailyLimitMsg] else []) ++
  (if ctx.patient_active a.patient = false then
    ["Cannot schedule appointment for inactive patient"] else []) ++
  (match a.estimated_duration with
    | some d => if d ≠ 0 ∧ (d < 5 ∨ d > 180) then
        ["Estimated duration must be between 5 and 180 minutes"] else []
    | none => [])

/-- Django `Model.validate_unique` for the `unique_together`
constraint on `(doctor, appointment_date, appointment_time)`:
violated by any other stored row with the same key, regardless of
status. -/
def unique_errors (db : List Appointment) (a : Appointment) : List String :=
  if (db.filter (fun o => o.pk ≠ a.pk ∧ o.doctor = a.doctor ∧
      o.appointment_date = a.appointment_date ∧
      o.appointment_time = a.appointment_time)).isEmpty = false then
    [uniqueMsg] else []

/-- `full_clean`: field validators, then `clean`, then
`validate_unique`, with all errors collected. -/
def full_clean_errors (ctx : ApptCtx) (db : List Appointment) (a : Appointment) : List String :=
  clean_fields_errors a ++ clean_errors ctx db a ++ unique_errors db a

/-- The `duration_map` of `Appointment.save` (with `.get` default 30). -/
def priority_duration (p : Priority) : Int :=
  match p with
  | .LOW => 15
  | .MEDIUM => 30
  | .HIGH => 45
  | .URGENT => 60

/-- Python truthiness of `self.estimated_duration`:
`not self.estimated_duration` holds for `None` and `0`. -/
def durationFalsy (d : Option Int) : Bool :=
  match d with
  | none => true
  | some v => v = 0

/-- `Appointment.save`: `full_clean` first (persist nothing on
validation errors), then auto-set `estimated_duration` from the
priority map when it is falsy, then persist. -/
def save (ctx : ApptCtx) (db : List Appointment) (a : Appointment) :
    Except (List String) Appointment :=
  let es := full_clean_errors ctx db a
  if es = [] then
    let a1 := if durationFalsy a.estimated_duration then
      { a with estimated_duration := some (priority_duration a.priority) } else a
    .ok a1
  else .error es

/-- `Appointment.can_be_cancelled`. -/
def can_be_cancelled (a : Appointment) : Bool :=
  a.status = .SCHEDULED ∨ a.status = .CONFIRMED

/-- `Appointment.mark_completed`: from any status other than
COMPLETED, set status COMPLETED, optionally record the actual
duration, stamp check-out, and save; otherwise do nothing. -/
def mark_completed (ctx : ApptCtx) (db : List Appointment) (now : Nat)
    (actual : Option Int) (a : Appointment) : Except (List String) Appointment :=
  if a.status ≠ .COMPLETED then
    let ad := match actual with
      | some d => if d ≠ 0 then some d else a.actual_duration
      | none => a.actual_duration
    save ctx db { a with status := .COMPLETED, actual_duration := ad,
                         check_out_time := some now }
  else .ok a

/-- `Appointment.mark_in_progress`: from SCHEDULED or CONFIRMED, set
status IN_PROGRESS, stamp check-in, and save; otherwise do nothing. -/
def mark_in_progress (ctx : ApptCtx) (db : List Appointment) (now : Nat)
    (a : Appointment) : Except (List String) Appointment :=
  if a.status = .SCHEDULED ∨ a.status = .CONFIRMED then
    save ctx db { a with status := .IN_PROGRESS, check_in_time := some now }
  else .ok a

/-- `Appointment.mark_confirmed`: from SCHEDULED, set status
CONFIRMED and save; otherwise do nothing. -/
def mark_confirmed (ctx : ApptCtx) (db : List Appointment)
    (a : Appointment) : Except (List String) Appointment :=
  if a.status = .SCHEDULED then
    save ctx db { a with status := .CONFIRMED }
  else .ok a

/-- `Appointment.mark_cancelled`: when `can_be_cancelled`, set status
CANCELLED and save; otherwise do nothing. -/
def mark_cancelled (ctx : ApptCtx) (db : List Appointment)
    (a : Appointment) : Except (List String) Appointment :=
  if can_be_cancelled a then
    save ctx db { a with status := .CANCELLED }
  else .ok a

end Appointment

/-! Concrete records used to instantiate the claims. -/

/-- A fixed calendar date. -/
def d0 : Date := ⟨2026, 10, 12⟩

/-- The worked example of the specification: consultation 300,
medicine 150, lab 0, other 0, discount 50, tax 20, nothing paid. -/
def exampleBill : Billing :=
  { consultation_fee := 300, medicine_cost := 150, lab_cost := 0, other_charges := 0,
    discount := 50, tax_amount := 20, total_amount := 0, amount_paid := 0, balance_due := 0,
    payment_status := .PENDING, payment_method := none, bill_number := "B1",
    billing_date := 0, due_date := some 10, payment_date := none, notes := "",
    created_date := d0 }

/-- `exampleBill` after its first save: total 420, balance 420. -/
def exampleBillSaved : Billing :=
  { exampleBill with total_amount := 420, balance_due := 420 }

/-- `exampleBillSaved` after `add_payment 420`: fully paid. -/
def exampleBillPaid : Billing :=
  { exampleBillSaved with amount_paid := 420, balance_due := 0,
                          payment_status := .PAID, payment_date := some 1 }

/-- A persisted bill with a negative `amount_paid` (nothing in
`Billing.clean` forbids one): the C2 counterexample input. -/
def c2cexBill : Billing := { exampleBillSaved with amount_paid := -1, balance_due := 421 }

/-- A persisted zero-total bill with negative `amount_paid`: the C3
counterexample input.  Its balance due is 5, so a payment of 5 is
accepted and brings `amount_paid` to 0 = `total_amount`. -/
def c3cexBill : Billing :=
  { consultation_fee := 0, medicine_cost := 0, lab_cost := 0, other_charges := 0,
    discount := 0, tax_amount := 0, total_amount := 0, amount_paid := -5, balance_due := 5,
    payment_status := .PENDING, payment_method := none, bill_number := "B3",
    billing_date := 0, due_date := some 10, payment_date := none, notes := "",
    created_date := d0 }

/-- `c3cexBill` after `add_payment 5`: paid 0 = total 0, yet PENDING. -/
def c3cexAfter : Billing := { c3cexBill with amount_paid := 0, balance_due := 0 }

/-- A fully paid bill: the C4 counterexample input.  Any discount
makes the recalculated total smaller than `amount_paid`. -/
def c4cexBill : Billing :=
  { consultation_fee := 100, medicine_cost := 0, lab_cost := 0, other_charges := 0,
    discount := 0, tax_amount := 0, total_amount := 100, amount_paid := 100, balance_due := 0,
    payment_status := .PAID, payment_method := some .CASH, bill_number := "B4",
    billing_date := 0, due_date := some 10, payment_date := some 1, notes := "",
    created_date := d0 }

/-- A bill awaiting its first save, with no bill number and no due
date: the C5/C10 witness input. -/
def freshBill : Billing := { exampleBill with bill_number := "", due_date := none }

/-- `freshBill` after its first save against an empty store: number
`BILL-20261012-0001`, due date 15 days after day 0. -/
def freshBillSaved : Billing :=
  { exampleBill with bill_number := "BILL-20261012-0001",
                     total_amount := 420, balance_due := 420, due_date := some 15 }

/-- `exampleBillSaved` after `apply_discount 100 "promo"`. -/
def exampleBillDiscounted : Billing :=
  { exampleBillSaved with discount := 100, total_amount := 370, balance_due := 370,
                          notes := "Discount applied: promo" }

/-- A request context for appointment saves: today is day 100, the
six-month bound is day 280, every patient is active. -/
def ctxA : ApptCtx := ⟨100, 280, fun _ => true⟩

/-- A valid appointment template: day 110, 10:00, SCHEDULED. -/
def apptBase : Appointment :=
  { pk := 1, patient := 1, doctor := 1, appointment_date := 110, appointment_time := 600,
    purpose := "routine checkup", status := .SCHEDULED, priority := .MEDIUM,
    created_by := some .RECEPTIONIST, estimated_duration := some 30,
    actual_duration := none, check_in_time := none, check_out_time := none }

/-- A cancelled appointment: the C6 counterexample input. -/
def c6cexAppt : Appointment := { apptBase with status := .CANCELLED }

/-- `c6cexAppt` after `mark_completed`: the cancelled appointment has
become COMPLETED. -/
def c6cexAfter : Appointment :=
  { c6cexAppt with status := .COMPLETED, check_out_time := some 7 }

/-- A cancelled appointment occupying the 10:00 slot of doctor 1: the
C7 counterexample occupant. -/
def c7occupant : Appointment := { apptBase with status := .CANCELLED }

/-- A second appointment for the same doctor, date and time as
`c7occupant`: the C7 counterexample input. -/
def c7newAppt : Appointment := { apptBase with pk := 2, patient := 2 }

/-- Three cancelled same-day appointments of patient 1: the C8
counterexample store. -/
def c8db : List Appointment :=
  [{ apptBase with pk := 11, doctor := 1, appointment_time := 600, status := .CANCELLED },
   { apptBase with pk := 12, doctor := 2, appointment_time := 660, status := .CANCELLED },
   { apptBase with pk := 13, doctor := 3, appointment_time := 720, status := .CANCELLED }]

/-- A fourth same-day appointment for patient 1: the C8
counterexample input. -/
def c8newAppt : Appointment :=
  { apptBase with pk := 14, doctor := 4, appointment_time := 780 }

/-- A LOW-priority appointment carrying the `estimated_duration`
field default 30 (a Django instance created without an explicit
duration holds the field default): the C9 failing input. -/
def c9lowAppt : Appointment := { apptBase with pk := 21, priority := .LOW }

/-- A completed appointment: the C6 witness input. -/
def c6completedAppt : Appointment := { apptBase with status := .COMPLETED }

/-! Helper lemmas about the billing engine. -/

namespace Billing

theorem ite_singleton_eq_nil {c : Prop} [Decidable c] (x : String) :
    ((if c then [x] else []) = []) ↔ ¬ c := by
  split_ifs with h <;> simp [h]

theorem clean_errors_eq_nil (b : Billing) :
    clean_errors b = [] ↔
      (0 ≤ b.consultation_fee ∧ 0 ≤ b.medicine_cost ∧ 0 ≤ b.lab_cost ∧
       0 ≤ b.other_charges ∧ 0 ≤ b.discount ∧ 0 ≤ b.tax_amount ∧
       b.amount_paid ≤ b.total_amount) := by
  unfold clean_errors
  simp [List.append_eq_nil, ite_singleton_eq_nil, not_lt]

theorem update_payment_status_eq (now : Nat) (b : Billing) :
    update_payment_status now b =
      { b with payment_status := status_of b.amount_paid b.total_amount,
               payment_date := pdate_of now b.payment_date b.amount_paid b.total_amount } := by
  unfold update_payment_status status_of pdate_of
  split_ifs <;> rfl

theorem calculate_total_eq (now : Nat) (b : Billing) :
    calculate_total now b =
      { b with total_amount := computed_total b,
               balance_due := computed_total b - b.amount_paid,
               payment_status := status_of b.amount_paid (computed_total b),
               payment_date := pdate_of now b.payment_date b.amount_paid (computed_total b) } := by
  simp only [calculate_total]
  rw [update_payment_status_eq]
  rfl

theorem pre_save_eq (db : List Billing) (today : Date) (now : Nat) (b : Billing) :
    pre_save db today now b =
      { b with
        bill_number :=
          (if b.bill_number = "" then generate_bill_number db today else b.bill_number),
        total_amount := computed_total b,
        balance_due := computed_total b - b.amount_paid,
        payment_status := status_of b.amount_paid (computed_total b),
        payment_date := pdate_of now b.payment_date b.amount_paid (computed_total b),
        due_date :=
          (if b.due_date = none then some (b.billing_date + 15) else b.due_date) } := by
  simp only [pre_save]
  by_cases hn : b.bill_number = "" <;> simp only [hn, ite_true, ite_false, if_neg, not_false_iff] <;>
    rw [calculate_total_eq] <;>
    by_cases hd : b.due_date = none <;> simp [hd, computed_total]

theorem pre_save_fields (db : List Billing) (today : Date) (now : Nat) (b : Billing) :
    (pre_save db today now b).consultation_fee = b.consultation_fee ∧
    (pre_save db today now b).medicine_cost = b.medicine_cost ∧
    (pre_save db today now b).lab_cost = b.lab_cost ∧
    (pre_save db today now b).other_charges = b.other_charges ∧
    (pre_save db today now b).discount = b.discount ∧
    (pre_save db today now b).tax_amount = b.tax_amount ∧
    (pre_save db today now b).amount_paid = b.amount_paid ∧
    (pre_save db today now b).total_amount = computed_total b ∧
    (pre_save db today now b).balance_due = computed_total b - b.amount_paid ∧
    (pre_save db today now b).billing_date = b.billing_date ∧
    (pre_save db today now b).notes = b.notes := by
  rw [pre_save_eq]
  refine ⟨rfl, rfl, rfl, rfl, rfl, rfl, rfl, rfl, rfl, rfl, rfl⟩

theorem save_eq_ok_iff (db : List Billing) (today : Date) (now : Nat) (b b' : Billing) :
    save db today now b = .ok b' ↔
      clean_errors (pre_save db today now b) = [] ∧ b' = pre_save db today now b := by
  simp only [save]
  split_ifs with h <;> simp_all [eq_comm]

theorem save_eq_error_iff (db : List Billing) (today : Date) (now : Nat) (b : Billing)
    (es : List String) :
    save db today now b = .error es ↔
      clean_errors (pre_save db today now b) = es ∧ es ≠ [] := by
  simp only [save]
  split_ifs with h <;> simp_all [eq_comm]

theorem save_ok_inv (db : List Billing) (today : Date) (now : Nat) (b b' : Billing)
    (h : save db today now b = .ok b') :
    b'.balance_due = b'.total_amount - b'.amount_paid ∧
    b'.amount_paid ≤ b'.total_amount := by
  obtain ⟨hnil, rfl⟩ := (save_eq_ok_iff db today now b b').1 h
  obtain ⟨-, -, -, -, -, -, h7, h8, h9, -, -⟩ := pre_save_fields db today now b
  refine ⟨by rw [h9, h8, h7], ?_⟩
  exact ((clean_errors_eq_nil _).1 hnil).2.2.2.2.2.2

theorem add_payment_eq (db : List Billing) (today : Date) (now : Nat)
    (amount : Int) (method : Option PayMethod) (notes : String) (b : Billing) :
    add_payment db today now amount method notes b =
      if amount ≤ 0 then .error ["Payment amount must be positive"]
      else if amount > b.balance_due then .error ["Payment amount exceeds balance due"]
      else save db today now (calculate_total now (payment_target amount method notes b)) := by
  simp only [add_payment, payment_target]
  rcases method with _ | m <;> by_cases hn : notes = "" <;> simp [hn]

theorem mark_as_paid_eq (db : List Billing) (today : Date) (now : Nat)
    (method : PayMethod) (notes : String) (b : Billing) :
    mark_as_paid db today now method notes b =
      save db today now (calculate_total now (paid_target now method notes b)) := by
  simp only [mark_as_paid, paid_target]
  by_cases hn : notes = "" <;> simp [hn]

theorem apply_discount_eq (db : List Billing) (today : Date) (now : Nat)
    (discount_amount : Int) (reason : String) (b : Billing) :
    apply_discount db today now discount_amount reason b =
      if discount_amount ≤ 0 then .error ["Discount amount must be positive"]
      else if discount_amount > b.total_amount then .error ["Discount cannot exceed total amount"]
      else save db today now (calculate_total now (discount_target discount_amount reason b)) := by
  simp only [apply_discount, discount_target]
  by_cases hn : reason = "" <;> simp [hn]

theorem computed_total_calc (now : Nat) (c : Billing) :
    computed_total (calculate_total now c) = computed_total c := by
  rw [calculate_total_eq]
  simp [computed_total]

theorem clean_pre_calc_iff (db : List Billing) (today : Date) (now : Nat) (c : Billing) :
    clean_errors (pre_save db today now (calculate_total now c)) = [] ↔
      (0 ≤ c.consultation_fee ∧ 0 ≤ c.medicine_cost ∧ 0 ≤ c.lab_cost ∧
       0 ≤ c.other_charges ∧ 0 ≤ c.discount ∧ 0 ≤ c.tax_amount ∧
       c.amount_paid ≤ computed_total c) := by
  rw [clean_errors_eq_nil]
  obtain ⟨e1, e2, e3, e4, e5, e6, e7, e8, -, -, -⟩ :=
    pre_save_fields db today now (calculate_total now c)
  rw [e1, e2, e3, e4, e5, e6, e7, e8, computed_total_calc, calculate_total_eq]

theorem save_calc_ok_iff (db : List Billing) (today : Date) (now : Nat) (c : Billing)
    (b' : Billing) :
    save db today now (calculate_total now c) = .ok b' ↔
      (0 ≤ c.consultation_fee ∧ 0 ≤ c.medicine_cost ∧ 0 ≤ c.lab_cost ∧
       0 ≤ c.other_charges ∧ 0 ≤ c.discount ∧ 0 ≤ c.tax_amount ∧
       c.amount_paid ≤ computed_total c) ∧
      b' = pre_save db today now (calculate_total now c) := by
  rw [save_eq_ok_iff, clean_pre_calc_iff]

theorem save_calc_error_iff (db : List Billing) (today : Date) (now : Nat) (c : Billing) :
    (∃ es, save db today now (calculate_total now c) = .error es) ↔
      ¬ (0 ≤ c.consultation_fee ∧ 0 ≤ c.medicine_cost ∧ 0 ≤ c.lab_cost ∧
         0 ≤ c.other_charges ∧ 0 ≤ c.discount ∧ 0 ≤ c.tax_amount ∧
         c.amount_paid ≤ computed_total c) := by
  constructor
  · rintro ⟨es, hes⟩
    rw [save_eq_error_iff] at hes
    intro hc
    exact hes.2 (hes.1 ▸ (clean_pre_calc_iff db today now c).2 hc)
  · intro hc
    refine ⟨clean_errors (pre_save db today now (calculate_total now c)), ?_⟩
    rw [save_eq_error_iff]
    exact ⟨rfl, fun hnil => hc ((clean_pre_calc_iff db today now c).1 hnil)⟩

theorem save_calc_fields (db : List Billing) (today : Date) (now : Nat) (c : Billing)
    (b' : Billing) (h : save db today now (calculate_total now c) = .ok b') :
    b'.amount_paid = c.amount_paid ∧
    b'.total_amount = computed_total c ∧
    b'.balance_due = computed_total c - c.amount_paid ∧
    b'.payment_status = status_of c.amount_paid (computed_total c) ∧
    b'.notes = c.notes ∧
    b'.discount = c.discount := by
  obtain ⟨-, rfl⟩ := (save_calc_ok_iff db today now c _).1 h
  rw [pre_save_eq, calculate_total_eq]
  refine ⟨rfl, ?_, ?_, ?_, rfl, rfl⟩ <;> simp [computed_total]

theorem status_of_eq_paid_iff (p t : Int) :
    status_of p t = .PAID ↔ p ≠ 0 ∧ p ≥ t := by
  unfold status_of
  split_ifs <;> simp_all

end Billing

/-! Helper lemmas about the appointment scheduler. -/

theorem mem_ite_singleton_elim {c : Prop} [Decidable c] {x m : String}
    (h : x ∈ (if c then [m] else [])) : c ∧ x = m := by
  by_cases hc : c
  · rw [if_pos hc] at h
    simp only [List.mem_singleton] at h
    exact ⟨hc, h⟩
  · rw [if_neg hc] at h
    cases h

theorem mem_ite_singleton_self {c : Prop} [Decidable c] (hc : c) (m : String) :
    m ∈ (if c then [m] else []) := by
  rw [if_pos hc]
  exact List.mem_singleton_self m

theorem not_mem_ite_singleton {c : Prop} [Decidable c] {x m : String} (hxm : x ≠ m) :
    x ∉ (if c then [m] else []) := by
  intro h
  exact hxm (mem_ite_singleton_elim h).2

theorem mem_ite_singleton_iff {c : Prop} [Decidable c] (x m : String) :
    x ∈ (if c then [m] else []) ↔ c ∧ x = m := by
  split_ifs with h <;> simp [h]

theorem filter_isEmpty_false_iff {α} (l : List α) (p : α → Bool) :
    (l.filter p).isEmpty = false ↔ ∃ x ∈ l, p x := by
  rw [List.isEmpty_eq_false, ne_eq, List.filter_eq_nil_iff]
  push_neg
  simp

namespace Appointment

theorem app_save_eq_ok_iff (ctx : ApptCtx) (db : List Appointment) (a a' : Appointment) :
    save ctx db a = .ok a' ↔
      full_clean_errors ctx db a = [] ∧
      a' = (if durationFalsy a.estimated_duration then
        { a with estimated_duration := some (priority_duration a.priority) } else a) := by
  simp only [save]
  constructor
  · intro h
    by_cases he : full_clean_errors ctx db a = []
    · rw [if_pos he] at h
      injection h with h1
      exact ⟨he, h1.symm⟩
    · rw [if_neg he] at h
      cases h
  · rintro ⟨he, rfl⟩
    rw [if_pos he]

theorem app_save_eq_error_iff (ctx : ApptCtx) (db : List Appointment) (a : Appointment)
    (es : List String) :
    save ctx db a = .error es ↔ full_clean_errors ctx db a = es ∧ es ≠ [] := by
  simp only [save]
  constructor
  · intro h
    by_cases he : full_clean_errors ctx db a = []
    · rw [if_pos he] at h
      cases h
    · rw [if_neg he] at h
      injection h with h1
      exact ⟨h1, h1 ▸ he⟩
  · rintro ⟨rfl, hne⟩
    rw [if_neg hne]

theorem save_error_of_mem (ctx : ApptCtx) (db : List Appointment) (a : Appointment)
    {m : String} (hm : m ∈ full_clean_errors ctx db a) :
    ∃ es, save ctx db a = .error es := by
  simp only [save]
  split_ifs with h
  · rw [h] at hm
    cases hm
  · exact ⟨_, rfl⟩

theorem save_ok_status (ctx : ApptCtx) (db : List Appointment) (a a' : Appointment)
    (h : save ctx db a = .ok a') : a'.status = a.status := by
  obtain ⟨-, rfl⟩ := (app_save_eq_ok_iff ctx db a a').1 h
  split_ifs <;> rfl

theorem conflictMsg_mem_iff (ctx : ApptCtx) (db : List Appointment) (a : Appointment) :
    conflictMsg ∈ full_clean_errors ctx db a ↔
      ∃ o ∈ db, o.doctor = a.doctor ∧ o.appointment_date = a.appointment_date ∧
        o.appointment_time = a.appointment_time ∧ activeStatus o.status ∧ o.pk ≠ a.pk := by
  cases hed : a.estimated_duration <;> cases had : a.actual_duration <;>
    cases hcb : a.created_by <;>
    simp [full_clean_errors, clean_fields_errors, clean_errors, unique_errors,
      hed, had, hcb, conflictMsg, dailyLimitMsg, uniqueMsg,
      mem_ite_singleton_iff, filter_isEmpty_false_iff]

theorem uniqueMsg_mem_iff (ctx : ApptCtx) (db : List Appointment) (a : Appointment) :
    uniqueMsg ∈ full_clean_errors ctx db a ↔
      ∃ o ∈ db, o.pk ≠ a.pk ∧ o.doctor = a.doctor ∧
        o.appointment_date = a.appointment_date ∧
        o.appointment_time = a.appointment_time := by
  cases hed : a.estimated_duration <;> cases had : a.actual_duration <;>
    cases hcb : a.created_by <;>
    simp [full_clean_errors, clean_fields_errors, clean_errors, unique_errors,
      hed, had, hcb, conflictMsg, dailyLimitMsg, uniqueMsg,
      mem_ite_singleton_iff, filter_isEmpty_false_iff]

theorem dailyLimitMsg_mem_iff (ctx : ApptCtx) (db : List Appointment) (a : Appointment) :
    dailyLimitMsg ∈ full_clean_errors ctx db a ↔
      (db.filter (fun o => o.patient = a.patient ∧
        o.appointment_date = a.appointment_date ∧ o.pk ≠ a.pk)).length ≥ 3 := by
  cases hed : a.estimated_duration <;> cases had : a.actual_duration <;>
    cases hcb : a.created_by <;>
    simp [full_clean_errors, clean_fields_errors, clean_errors, unique_errors,
      hed, had, hcb, conflictMsg, dailyLimitMsg, uniqueMsg,
      mem_ite_singleton_iff, filter_isEmpty_false_iff]

end Appointment

/-! The claims. -/

/-- C1: after every successful mutating operation on a bill (save,
add_payment, mark_as_paid, apply_discount), the persisted bill
satisfies `balance_due = total_amount - amount_paid` and
`amount_paid ≤ total_amount`; a save whose fields would violate
`amount_paid ≤ total_amount` (the recomputed total is below the
amount paid) raises a validation error and does not persist. -/
theorem c1_bill_invariant_after_mutation :
    (∀ db today now b b', Billing.save db today now b = .ok b' →
        b'.balance_due = b'.total_amount - b'.amount_paid ∧
        b'.amount_paid ≤ b'.total_amount) ∧
    (∀ db today now amount method notes b b',
        Billing.add_payment db today now amount method notes b = .ok b' →
        b'.balance_due = b'.total_amount - b'.amount_paid ∧
        b'.amount_paid ≤ b'.total_amount) ∧
    (∀ db today now method notes b b',
        Billing.mark_as_paid db today now method notes b = .ok b' →
        b'.balance_due = b'.total_amount - b'.amount_paid ∧
        b'.amount_paid ≤ b'.total_amount) ∧
    (∀ db today now amt reason b b',
        Billing.apply_discount db today now amt reason b = .ok b' →
        b'.balance_due = b'.total_amount - b'.amount_paid ∧
        b'.amount_paid ≤ b'.total_amount) ∧
    (∀ db today now b, Billing.computed_total b < b.amount_paid →
        ∃ es, Billing.save db today now b = .error es) := by
  refine ⟨?_, ?_, ?_, ?_, ?_⟩
  · intro db today now b b' h
    exact Billing.save_ok_inv db today now b b' h
  · intro db today now amount method notes b b' h
    rw [Billing.add_payment_eq] at h
    split_ifs at h <;>
      first
        | exact Except.noConfusion h
        | exact Billing.save_ok_inv _ _ _ _ _ h
  · intro db today now method notes b b' h
    rw [Billing.mark_as_paid_eq] at h
    exact Billing.save_ok_inv _ _ _ _ _ h
  · intro db today now amt reason b b' h
    rw [Billing.apply_discount_eq] at h
    split_ifs at h <;>
      first
        | exact Except.noConfusion h
        | exact Billing.save_ok_inv _ _ _ _ _ h
  · intro db today now b hlt
    refine ⟨Billing.clean_errors (Billing.pre_save db today now b), ?_⟩
    rw [Billing.save_eq_error_iff]
    refine ⟨rfl, fun hnil => ?_⟩
    obtain ⟨-, -, -, -, -, -, h7, h8, -, -, -⟩ := Billing.pre_save_fields db today now b
    have hle := ((Billing.clean_errors_eq_nil _).1 hnil).2.2.2.2.2.2
    rw [h7, h8] at hle
    exact absurd hle (not_le.mpr hlt)

/-- Witness for C1: the worked-example bill saves successfully and
the persisted record satisfies the invariant. -/
theorem c1_witness :
    exampleBillSaved.balance_due = exampleBillSaved.total_amount - exampleBillSaved.amount_paid ∧
    exampleBillSaved.amount_paid ≤ exampleBillSaved.total_amount :=
  c1_bill_invariant_after_mutation.1 [] d0 0 exampleBill exampleBillSaved (by decide)

/-- C5: when a bill is saved with an empty bill_number it is assigned
`BILL-<YYYYMMDD>-<seq>` where `YYYYMMDD` formats the save-time date
and `seq`, zero-padded to four digits, is one plus the count of bills
already created on that date; a bill that already has a bill_number
keeps it unchanged. -/
theorem c5_bill_number_assignment :
    ∀ db today now b b', Billing.save db today now b = .ok b' →
      (b.bill_number = "" →
        b'.bill_number =
          "BILL-" ++ dateStr today ++ "-" ++
            padNum 4 ((db.filter (fun x => x.created_date = today)).length + 1)) ∧
      (b.bill_number ≠ "" → b'.bill_number = b.bill_number) := by
  intro db today now b b' h
  obtain ⟨-, rfl⟩ := (Billing.save_eq_ok_iff db today now b b').1 h
  rw [Billing.pre_save_eq]
  constructor
  · intro hn
    simp [hn, Billing.generate_bill_number]
  · intro hn
    simp [hn]

/-- Witness for C5: saving `freshBill` against an empty store on
2026-10-12 yields bill number `BILL-20261012-0001`. -/
theorem c5_witness :
    freshBillSaved.bill_number =
      "BILL-" ++ dateStr d0 ++ "-" ++
        padNum 4 ((([] : List Billing).filter (fun x => x.created_date = d0)).length + 1) :=
  (c5_bill_number_assignment [] d0 0 freshBill freshBillSaved (by decide)).1 rfl

/-- C10: a bill saved with no due_date gets
`due_date = billing_date + 15` days; a bill saved with a due_date
keeps it unchanged. -/
theorem c10_due_date_defaulting :
    ∀ db today now b b', Billing.save db today now b = .ok b' →
      (b.due_date = none → b'.due_date = some (b.billing_date + 15)) ∧
      (∀ d, b.due_date = some d → b'.due_date = some d) := by
  intro db today now b b' h
  obtain ⟨-, rfl⟩ := (Billing.save_eq_ok_iff db today now b b').1 h
  rw [Billing.pre_save_eq]
  constructor
  · intro hd
    simp [hd]
  · intro d hd
    simp [hd]

/-- Witness for C10: `freshBill` (billing_date 0, no due date) saves
with due date 15. -/
theorem c10_witness : freshBillSaved.due_date = some (freshBill.billing_date + 15) :=
  (c10_due_date_defaulting [] d0 0 freshBill freshBillSaved (by decide)).1 rfl

/-- C2 counterexample: the claim says any bill outside the PENDING
(`amount_paid = 0`) and PAID (`amount_paid ≥ total ∧ amount_paid > 0`)
cases gets status PARTIAL; for a bill with `amount_paid = -1` (which
`Billing.clean` does not forbid) `calculate_total` instead sets
PENDING. -/
theorem c2_negative_paid_counterexample :
    c2cexBill.amount_paid ≠ 0 ∧
    ¬ (c2cexBill.amount_paid ≥ (Billing.calculate_total 0 c2cexBill).total_amount ∧
       c2cexBill.amount_paid > 0) ∧
    (Billing.calculate_total 0 c2cexBill).payment_status = .PENDING ∧
    (Billing.calculate_total 0 c2cexBill).payment_status ≠ .PARTIAL := by
  decide

/-- C2 (amended): `calculate_total` sets
`total_amount = max 0 (consultation + medicine + lab + other - discount + tax)`,
`balance_due = total_amount - amount_paid`, and sets `payment_status`
to PENDING when `amount_paid = 0`, to PAID when
`amount_paid ≥ total_amount` and `amount_paid ≠ 0` (stamping
`payment_date`), to PARTIAL when `0 < amount_paid < total_amount`,
and back to PENDING — not PARTIAL — when `amount_paid < 0`; the
worked example computes total 420, and paying 420 yields PAID with
balance 0. -/
theorem c2_calculate_total_spec :
    (∀ now (b : Billing),
      (Billing.calculate_total now b).total_amount =
        max 0 (b.consultation_fee + b.medicine_cost + b.lab_cost + b.other_charges
          - b.discount + b.tax_amount) ∧
      (Billing.calculate_total now b).balance_due =
        (Billing.calculate_total now b).total_amount - b.amount_paid ∧
      (Billing.calculate_total now b).amount_paid = b.amount_paid ∧
      (Billing.calculate_total now b).payment_status =
        (if b.amount_paid = 0 then .PENDING
         else if b.amount_paid ≥ (Billing.calculate_total now b).total_amount then .PAID
         else if b.amount_paid > 0 then .PARTIAL
         else .PENDING) ∧
      ((Billing.calculate_total now b).payment_status = .PAID →
        (Billing.calculate_total now b).payment_date = some now)) ∧
    (Billing.save [] d0 0 exampleBill = .ok exampleBillSaved ∧
     exampleBillSaved.total_amount = 420 ∧
     Billing.add_payment [] d0 1 420 none "" exampleBillSaved = .ok exampleBillPaid ∧
     exampleBillPaid.payment_status = .PAID ∧
     exampleBillPaid.balance_due = 0) := by
  constructor
  · intro now b
    rw [Billing.calculate_total_eq]
    have hmax : Billing.computed_total b =
        max 0 (b.consultation_fee + b.medicine_cost + b.lab_cost + b.other_charges
          - b.discount + b.tax_amount) := by
      unfold Billing.computed_total
      rcases lt_or_le (b.consultation_fee + b.medicine_cost + b.lab_cost + b.other_charges
          - b.discount + b.tax_amount) 0 with h | h
      · rw [if_pos h, max_eq_left h.le]
      · rw [if_neg (not_lt.mpr h), max_eq_right h]
    refine ⟨hmax, rfl, rfl, ?_, ?_⟩
    · show Billing.status_of b.amount_paid (Billing.computed_total b) = _
      unfold Billing.status_of
      rfl
    · show Billing.status_of b.amount_paid (Billing.computed_total b) = .PAID →
        Billing.pdate_of now b.payment_date b.amount_paid (Billing.computed_total b) = some now
      unfold Billing.status_of Billing.pdate_of
      split_ifs <;> simp_all
  · refine ⟨by decide, by decide, by decide, by decide, by decide⟩

/-- C3 counterexample: on the persisted bill `c3cexBill` (total 0,
amount_paid -5, balance 5 — a state `Billing.clean` accepts),
`add_payment 5` succeeds and brings `amount_paid` to 0 =
`total_amount`, yet the resulting status is PENDING, not PAID, so
"status is PAID iff the new amount_paid equals total_amount" fails. -/
theorem c3_zero_total_counterexample :
    Billing.Inv c3cexBill ∧
    ¬ ((5 : Int) ≤ 0 ∨ (5 : Int) > c3cexBill.balance_due) ∧
    Billing.add_payment [] d0 0 5 none "" c3cexBill = .ok c3cexAfter ∧
    c3cexAfter.amount_paid = c3cexAfter.total_amount ∧
    c3cexAfter.payment_status ≠ .PAID := by
  decide

/-- C3 (amended): on a bill satisfying the persisted-state invariant,
`add_payment amount` raises a validation error iff `amount ≤ 0` or
`amount > balance_due`; otherwise it increases `amount_paid` by
exactly `amount`, recalculates totals, persists, and the resulting
`payment_status` is PAID iff the new `amount_paid` equals
`total_amount` AND is non-zero (a zero-total bill fully paid from a
negative balance ends PENDING instead). -/
theorem c3_add_payment_spec :
    ∀ db today now amount method notes b, Billing.Inv b →
      ((∃ es, Billing.add_payment db today now amount method notes b = .error es) ↔
        amount ≤ 0 ∨ amount > b.balance_due) ∧
      (∀ b', Billing.add_payment db today now amount method notes b = .ok b' →
        b'.amount_paid = b.amount_paid + amount ∧
        b'.total_amount = b.total_amount ∧
        b'.balance_due = b.total_amount - (b.amount_paid + amount) ∧
        (b'.payment_status = .PAID ↔
          b'.amount_paid = b'.total_amount ∧ b'.amount_paid ≠ 0)) := by
  intro db today now amount method notes b hInv
  obtain ⟨hT, hB, hP, h1, h2, h3, h4, h5, h6⟩ := hInv
  have hct : Billing.computed_total (Billing.payment_target amount method notes b) =
      Billing.computed_total b := rfl
  have hpap : (Billing.payment_target amount method notes b).amount_paid =
      b.amount_paid + amount := rfl
  by_cases hA : amount ≤ 0
  · constructor
    · rw [Billing.add_payment_eq, if_pos hA]
      exact ⟨fun _ => Or.inl hA, fun _ => ⟨_, rfl⟩⟩
    · intro b' hb'
      rw [Billing.add_payment_eq, if_pos hA] at hb'
      exact Except.noConfusion hb'
  · by_cases hA2 : amount > b.balance_due
    · constructor
      · rw [Billing.add_payment_eq, if_neg hA, if_pos hA2]
        exact ⟨fun _ => Or.inr hA2, fun _ => ⟨_, rfl⟩⟩
      · intro b' hb'
        rw [Billing.add_payment_eq, if_neg hA, if_pos hA2] at hb'
        exact Except.noConfusion hb'
    · have hpos : 0 < amount := not_le.mp hA
      have hle : amount ≤ b.balance_due := not_lt.mp hA2
      have hpaidle : b.amount_paid + amount ≤ Billing.computed_total b := by
        have hb2 : b.balance_due = Billing.computed_total b - b.amount_paid := by
          rw [hB, hT]
        linarith
      constructor
      · rw [Billing.add_payment_eq, if_neg hA, if_neg hA2,
          Billing.save_calc_error_iff]
        constructor
        · intro hn
          exact absurd ⟨h1, h2, h3, h4, h5, h6, hpap ▸ hct ▸ hpaidle⟩ hn
        · rintro (h | h)
          · exact absurd h hA
          · exact absurd h hA2
      · intro b' hb'
        rw [Billing.add_payment_eq, if_neg hA, if_neg hA2] at hb'
        obtain ⟨hpa, htot, hbal, hst, -, -⟩ := Billing.save_calc_fields _ _ _ _ _ hb'
        rw [hpap] at hpa
        rw [hct] at htot hbal
        rw [hpap] at hbal
        refine ⟨hpa, by rw [htot, hT], by rw [hbal, hT], ?_⟩
        rw [hst, Billing.status_of_eq_paid_iff, hpap, hct, hpa, htot]
        constructor
        · rintro ⟨hne, hge⟩
          exact ⟨le_antisymm (hpa ▸ hpaidle) hge, hne⟩
        · rintro ⟨heq, hne⟩
          exact ⟨hne, le_of_eq heq.symm⟩

/-- Witness for C3: paying 420 on the saved worked-example bill adds
exactly 420 to the amount paid. -/
theorem c3_witness :
    exampleBillPaid.amount_paid = exampleBillSaved.amount_paid + 420 :=
  (((c3_add_payment_spec [] d0 1 420 none "" exampleBillSaved (by decide)).2)
    exampleBillPaid (by decide)).1

/-- C4 counterexample: on the fully paid bill `c4cexBill`
(total 100, paid 100), a discount of 50 satisfies
`0 < 50 ≤ total_amount`, yet `apply_discount` does not persist: after
setting the discount the recalculated total (50) is below the amount
paid (100), so the save raises the `amount_paid` validation error. -/
theorem c4_paid_bill_discount_counterexample :
    Billing.Inv c4cexBill ∧
    (0 : Int) < 50 ∧ (50 : Int) ≤ c4cexBill.total_amount ∧
    Billing.apply_discount [] d0 0 50 "promo" c4cexBill = .error ["amount_paid"] := by
  decide

/-- C4 (amended): on a bill satisfying the persisted-state invariant,
`apply_discount amount` fails iff `amount ≤ 0`, `amount >
total_amount`, or the recalculated total after setting
`discount = amount` is below `amount_paid`; in the remaining cases it
sets `discount = amount`, appends the reason to the notes,
recalculates totals and persists. -/
theorem c4_apply_discount_spec :
    ∀ db today now amt reason b, Billing.Inv b →
      ((∃ es, Billing.apply_discount db today now amt reason b = .error es) ↔
        amt ≤ 0 ∨ amt > b.total_amount ∨
          Billing.computed_total { b with discount := amt } < b.amount_paid) ∧
      (∀ b', Billing.apply_discount db today now amt reason b = .ok b' →
        b'.discount = amt ∧
        b'.total_amount = Billing.computed_total { b with discount := amt } ∧
        b'.balance_due = b'.total_amount - b.amount_paid ∧
        b'.amount_paid = b.amount_paid ∧
        b'.notes = (if reason = "" then b.notes
          else pyStrip (b.notes ++ "\nDiscount applied: " ++ reason))) := by
  intro db today now amt reason b hInv
  obtain ⟨hT, hB, hP, h1, h2, h3, h4, h5, h6⟩ := hInv
  have hctd : Billing.computed_total (Billing.discount_target amt reason b) =
      Billing.computed_total { b with discount := amt } := rfl
  have hpad : (Billing.discount_target amt reason b).amount_paid = b.amount_paid := rfl
  have hdd : (Billing.discount_target amt reason b).discount = amt := rfl
  have hnd : (Billing.discount_target amt reason b).notes =
      (if reason = "" then b.notes
        else pyStrip (b.notes ++ "\nDiscount applied: " ++ reason)) := rfl
  by_cases hA : amt ≤ 0
  · constructor
    · rw [Billing.apply_discount_eq, if_pos hA]
      exact ⟨fun _ => Or.inl hA, fun _ => ⟨_, rfl⟩⟩
    · intro b' hb'
      rw [Billing.apply_discount_eq, if_pos hA] at hb'
      exact Except.noConfusion hb'
  · by_cases hA2 : amt > b.total_amount
    · constructor
      · rw [Billing.apply_discount_eq, if_neg hA, if_pos hA2]
        exact ⟨fun _ => Or.inr (Or.inl hA2), fun _ => ⟨_, rfl⟩⟩
      · intro b' hb'
        rw [Billing.apply_discount_eq, if_neg hA, if_pos hA2] at hb'
        exact Except.noConfusion hb'
    · have hpos : (0 : Int) ≤ amt := le_of_lt (not_le.mp hA)
      constructor
      · rw [Billing.apply_discount_eq, if_neg hA, if_neg hA2,
          Billing.save_calc_error_iff]
        constructor
        · intro hn
          refine Or.inr (Or.inr ?_)
          by_contra hlt
          exact hn ⟨h1, h2, h3, h4, hpos, h6, hpad ▸ hctd ▸ not_lt.mp hlt⟩
        · rintro (h | h | h)
          · exact absurd h hA
          · exact absurd h hA2
          · intro hc
            have := hc.2.2.2.2.2.2
            rw [hpad, hctd] at this
            exact absurd this (not_le.mpr h)
      · intro b' hb'
        rw [Billing.apply_discount_eq, if_neg hA, if_neg hA2] at hb'
        obtain ⟨hpa, htot, hbal, -, hno, hdi⟩ := Billing.save_calc_fields _ _ _ _ _ hb'
        rw [hpad] at hpa hbal
        rw [hctd] at htot hbal
        rw [hdd] at hdi
        rw [hnd] at hno
        exact ⟨hdi, htot, by rw [hbal, htot], hpa, hno⟩

/-- Witness for C4: applying a 100 discount to the saved
worked-example bill persists with discount 100. -/
theorem c4_witness :
    exampleBillDiscounted.discount = 100 :=
  (((c4_apply_discount_spec [] d0 2 100 "promo" exampleBillSaved (by decide)).2)
    exampleBillDiscounted (by decide)).1

/-- C6 counterexample: `mark_completed` on a CANCELLED appointment
(valid fields, no conflicts) succeeds and moves it to COMPLETED, so
the state machine does leave CANCELLED. -/
theorem c6_cancelled_completed_counterexample :
    c6cexAppt.status = .CANCELLED ∧
    Appointment.mark_completed ctxA [c6cexAppt] 7 none c6cexAppt = .ok c6cexAfter ∧
    c6cexAfter.status = .COMPLETED := by
  refine ⟨rfl, ?_, rfl⟩
  decide

/-- C6 (amended): `mark_confirmed`, `mark_in_progress` and
`mark_cancelled` never change an appointment whose status is
COMPLETED or CANCELLED, and CANCELLED is reachable only from
SCHEDULED or CONFIRMED; COMPLETED is terminal for all four
operations; but `mark_completed` moves every appointment whose status
is not COMPLETED — a CANCELLED one included — to COMPLETED whenever
the save validation passes. -/
theorem c6_status_transition_spec :
    (∀ ctx db now actual a,
      a.status = .COMPLETED →
        Appointment.mark_confirmed ctx db a = .ok a ∧
        Appointment.mark_in_progress ctx db now a = .ok a ∧
        Appointment.mark_completed ctx db now actual a = .ok a ∧
        Appointment.mark_cancelled ctx db a = .ok a) ∧
    (∀ ctx db now a,
      a.status = .CANCELLED →
        Appointment.mark_confirmed ctx db a = .ok a ∧
        Appointment.mark_in_progress ctx db now a = .ok a ∧
        Appointment.mark_cancelled ctx db a = .ok a) ∧
    (∀ ctx db now actual a a',
      Appointment.mark_completed ctx db now actual a = .ok a' →
        a'.status = .COMPLETED) ∧
    (∀ ctx db a a',
      Appointment.mark_cancelled ctx db a = .ok a' → a'.status = .CANCELLED →
        a.status ≠ .CANCELLED →
        a.status = .SCHEDULED ∨ a.status = .CONFIRMED) ∧
    (∀ ctx db a a',
      Appointment.mark_confirmed ctx db a = .ok a' → a'.status = .CANCELLED →
        a.status = .CANCELLED) ∧
    (∀ ctx db now a a',
      Appointment.mark_in_progress ctx db now a = .ok a' → a'.status = .CANCELLED →
        a.status = .CANCELLED) := by
  refine ⟨?_, ?_, ?_, ?_, ?_, ?_⟩
  · intro ctx db now actual a hs
    refine ⟨?_, ?_, ?_, ?_⟩ <;>
      simp [Appointment.mark_confirmed, Appointment.mark_in_progress,
        Appointment.mark_completed, Appointment.mark_cancelled,
        Appointment.can_be_cancelled, hs]
  · intro ctx db now a hs
    refine ⟨?_, ?_, ?_⟩ <;>
      simp [Appointment.mark_confirmed, Appointment.mark_in_progress,
        Appointment.mark_cancelled, Appointment.can_be_cancelled, hs]
  · intro ctx db now actual a a' h
    unfold Appointment.mark_completed at h
    by_cases hs : a.status = .COMPLETED
    · rw [if_neg (not_not_intro hs)] at h
      injection h with h1
      rw [← h1]
      exact hs
    · rw [if_pos hs] at h
      exact Appointment.save_ok_status _ _ _ _ h
  · intro ctx db a a' h hca hne
    rw [Appointment.mark_cancelled] at h
    by_cases hc : Appointment.can_be_cancelled a
    · have := hc
      unfold Appointment.can_be_cancelled at this
      simpa using this
    · rw [if_neg (by simpa using hc)] at h
      injection h with h1
      rw [h1] at hne
      exact absurd hca hne
  · intro ctx db a a' h hca
    rw [Appointment.mark_confirmed] at h
    by_cases hs : a.status = .SCHEDULED
    · rw [if_pos hs] at h
      have h2 := Appointment.save_ok_status _ _ _ _ h
      simp only [] at h2
      rw [h2] at hca
      exact AppStatus.noConfusion hca
    · rw [if_neg hs] at h
      injection h with h1
      rw [h1]
      exact hca
  · intro ctx db now a a' h hca
    rw [Appointment.mark_in_progress] at h
    by_cases hs : a.status = .SCHEDULED ∨ a.status = .CONFIRMED
    · rw [if_pos hs] at h
      have h2 := Appointment.save_ok_status _ _ _ _ h
      simp only [] at h2
      rw [h2] at hca
      exact AppStatus.noConfusion hca
    · rw [if_neg hs] at h
      injection h with h1
      rw [h1]
      exact hca

/-- Witness for C6: a COMPLETED appointment is unchanged by
`mark_cancelled`. -/
theorem c6_witness :
    Appointment.mark_cancelled ctxA [] c6completedAppt = .ok c6completedAppt :=
  (c6_status_transition_spec.1 ctxA [] 0 none c6completedAppt rfl).2.2.2

/-- C7 counterexample: a CANCELLED appointment occupies doctor 1's
slot; the second appointment at the same doctor, date and time is
nonetheless rejected — by the unique-together (doctor, date, time)
validation that `full_clean` always runs — so a non-active occupant
does cause the new save to be rejected. -/
theorem c7_cancelled_occupant_counterexample :
    Appointment.activeStatus c7occupant.status = false ∧
    c7occupant.doctor = c7newAppt.doctor ∧
    c7occupant.appointment_date = c7newAppt.appointment_date ∧
    c7occupant.appointment_time = c7newAppt.appointment_time ∧
    c7occupant.pk ≠ c7newAppt.pk ∧
    Appointment.save ctxA [c7occupant] c7newAppt = .error [Appointment.uniqueMsg] := by
  decide

/-- C7 (amended): an active-status occupant of the same doctor, date
and time triggers the conflict validation error and the save is
rejected; the appointment being updated is itself excluded from both
the conflict check and the uniqueness check; a non-active occupant
does not trigger the clean() conflict error, but the save is still
rejected by the unique-together (doctor, date, time) validation. -/
theorem c7_slot_conflict_spec :
    (∀ ctx db a,
      (∃ o ∈ db, o.doctor = a.doctor ∧ o.appointment_date = a.appointment_date ∧
        o.appointment_time = a.appointment_time ∧ Appointment.activeStatus o.status ∧
        o.pk ≠ a.pk) →
      Appointment.conflictMsg ∈ Appointment.full_clean_errors ctx db a ∧
      ∃ es, Appointment.save ctx db a = .error es) ∧
    (∀ ctx db a,
      (∀ o ∈ db, o.doctor = a.doctor → o.appointment_date = a.appointment_date →
        o.appointment_time = a.appointment_time → o.pk = a.pk) →
      Appointment.conflictMsg ∉ Appointment.full_clean_errors ctx db a ∧
      Appointment.uniqueMsg ∉ Appointment.full_clean_errors ctx db a) ∧
    (∀ ctx db a,
      (∃ o ∈ db, o.pk ≠ a.pk ∧ o.doctor = a.doctor ∧
        o.appointment_date = a.appointment_date ∧
        o.appointment_time = a.appointment_time) →
      Appointment.uniqueMsg ∈ Appointment.full_clean_errors ctx db a ∧
      ∃ es, Appointment.save ctx db a = .error es) ∧
    (∀ ctx db a,
      (∀ o ∈ db, o.doctor = a.doctor → o.appointment_date = a.appointment_date →
        o.appointment_time = a.appointment_time → o.pk ≠ a.pk →
        ¬ Appointment.activeStatus o.status) →
      Appointment.conflictMsg ∉ Appointment.full_clean_errors ctx db a) := by
  refine ⟨?_, ?_, ?_, ?_⟩
  · intro ctx db a h
    have hm := (Appointment.conflictMsg_mem_iff ctx db a).2 h
    exact ⟨hm, Appointment.save_error_of_mem ctx db a hm⟩
  · intro ctx db a h
    constructor
    · intro hm
      obtain ⟨o, ho, h1, h2, h3, h4, h5⟩ := (Appointment.conflictMsg_mem_iff ctx db a).1 hm
      exact h5 (h o ho h1 h2 h3)
    · intro hm
      obtain ⟨o, ho, h1, h2, h3, h4⟩ := (Appointment.uniqueMsg_mem_iff ctx db a).1 hm
      exact h1 (h o ho h2 h3 h4)
  · intro ctx db a h
    have hm := (Appointment.uniqueMsg_mem_iff ctx db a).2 h
    exact ⟨hm, Appointment.save_error_of_mem ctx db a hm⟩
  · intro ctx db a h hm
    obtain ⟨o, ho, h1, h2, h3, h4, h5⟩ := (Appointment.conflictMsg_mem_iff ctx db a).1 hm
    exact (h o ho h1 h2 h3 h5) h4

/-- Witness for C7: with a SCHEDULED occupant of the same slot, the
new appointment receives the conflict error. -/
theorem c7_witness :
    Appointment.conflictMsg ∈ Appointment.full_clean_errors ctxA [apptBase] c7newAppt :=
  (c7_slot_conflict_spec.1 ctxA [apptBase] c7newAppt
    ⟨apptBase, by simp, by decide⟩).1

/-- C8 counterexample: patient 1 has three same-day appointments, all
CANCELLED; the fourth booking is still rejected with the daily-limit
error, because the count in `Appointment.clean` does not filter by
status — contradicting the claim that only active appointments count. -/
theorem c8_cancelled_same_day_counterexample :
    (∀ o ∈ c8db, o.status = .CANCELLED ∧ o.patient = c8newAppt.patient ∧
      o.appointment_date = c8newAppt.appointment_date) ∧
    Appointment.save ctxA c8db c8newAppt = .error [Appointment.dailyLimitMsg] := by
  decide

/-- C8 (amended): a new appointment for a patient who already has 3
or more same-day appointments in the store — regardless of their
status, CANCELLED and COMPLETED included — is rejected with the
daily-limit validation error; with fewer than 3 the daily-limit error
is not raised. -/
theorem c8_daily_limit_spec :
    (∀ ctx db a,
      (db.filter (fun o => o.patient = a.patient ∧
        o.appointment_date = a.appointment_date ∧ o.pk ≠ a.pk)).length ≥ 3 →
      Appointment.dailyLimitMsg ∈ Appointment.full_clean_errors ctx db a ∧
      ∃ es, Appointment.save ctx db a = .error es) ∧
    (∀ ctx db a,
      (db.filter (fun o => o.patient = a.patient ∧
        o.appointment_date = a.appointment_date ∧ o.pk ≠ a.pk)).length < 3 →
      Appointment.dailyLimitMsg ∉ Appointment.full_clean_errors ctx db a) := by
  constructor
  · intro ctx db a h
    have hm := (Appointment.dailyLimitMsg_mem_iff ctx db a).2 h
    exact ⟨hm, Appointment.save_error_of_mem ctx db a hm⟩
  · intro ctx db a h hm
    exact absurd ((Appointment.dailyLimitMsg_mem_iff ctx db a).1 hm) (not_le.mpr h)

/-- Witness for C8: the fourth same-day booking of patient 1 receives
the daily-limit error. -/
theorem c8_witness :
    Appointment.dailyLimitMsg ∈ Appointment.full_clean_errors ctxA c8db c8newAppt :=
  (c8_daily_limit_spec.1 ctxA c8db c8newAppt (by decide)).1

/-- C9: the priority-based duration defaulting is unreachable.  A
LOW-priority appointment created without an explicit duration holds
the field default 30, which is truthy, so `save` persists it with 30
— not the 15 the claim (and the duration map in the code) prescribe;
and the falsy values that would trigger the map (0 and None) are
rejected by the field validators `full_clean` runs before the map. -/
theorem c9_priority_duration_map_unreachable :
    c9lowAppt.priority = .LOW ∧
    c9lowAppt.estimated_duration = some 30 ∧
    Appointment.save ctxA [] c9lowAppt = .ok c9lowAppt ∧
    Appointment.priority_duration .LOW = 15 ∧
    Appointment.save ctxA [] { c9lowAppt with estimated_duration := some 0 } =
      .error ["estimated_duration: Ensure this value is greater than or equal to 5"] ∧
    Appointment.save ctxA [] { c9lowAppt with estimated_duration := none } =
      .error ["estimated_duration: This field cannot be null"] := by
  decide
